import Mathlib

/-!
# Verification of the geo-patrol-server request-handling core

Shallow embedding of `src/server.js` (both the callback variant and the
pool variant; they agree on all behaviour treated here, and divergences
are noted at the definition involved).

External collaborators are modelled, not reimplemented:
* the MySQL datastore is a pure in-memory state (`Db`) together with a
  fault oracle (`DbFault`) standing for an arbitrary query failure;
* `bcrypt` is an abstract hash function passed as a parameter
  (`hashFn : String → Nat → String`, taking the password and the cost)
  and an abstract comparison (`cmp : String → String → Bool`);
* `jsonwebtoken` tokens are modelled as an inductive `Jwt`: a signed
  token is a structure carrying exactly the payload fields the code
  signs (`id`, `username`), the signing secret and the expiry instant;
  any other header word is `Jwt.malformed`;
* the `Authorization` header is the list of its space-separated words
  (`Option (List Jwt)`); an absent header and the empty header string
  are both falsy under the JS check `if (!bearerHeader)` and are both
  modelled as `none`;
* multer's disk storage is the list of written blob filenames.

JSON body values that may be absent or empty are `Option String`;
JavaScript's truthiness test `!x` on them is `falsy`.
-/

namespace GeoPatrol

/-- JS truthiness of a JSON string field: `!x` holds when the field is
absent (`undefined`) or the empty string. -/
def falsy : Option String → Bool
  | none => true
  | some s => s.isEmpty

/-- A row of the `users` table (schema from the `/init-db` route):
`id INT AUTO_INCREMENT PRIMARY KEY, username VARCHAR(50) UNIQUE,
password_hash VARCHAR(255), created_at TIMESTAMP`. -/
structure Courier where
  id : Nat
  username : String
  password_hash : String
  created_at : Nat
deriving DecidableEq, Repr

/-- A row of the `laporan_pengiriman` table (schema from the `/init-db`
route): `id, id_kurir, no_resi, foto_path, latitude, longitude, status,
created_at`. -/
structure Report where
  id : Nat
  id_kurir : Nat
  no_resi : String
  foto_path : String
  latitude : String
  longitude : String
  status : String
  created_at : Nat
deriving DecidableEq, Repr

/-- The relational datastore: both tables plus the AUTO_INCREMENT
counters. -/
structure Db where
  users : List Courier
  laporan : List Report
  nextUserId : Nat
  nextReportId : Nat
deriving DecidableEq, Repr

/-- A MySQL error object as the driver surfaces it: an error `code`
(e.g. `ER_DUP_ENTRY`) and a human-readable `message`. -/
structure DbError where
  code : String
  message : String
deriving DecidableEq, Repr

/-- Fault oracle for a single query: either the datastore behaves, or
the query fails with an arbitrary driver error. -/
inductive DbFault
  | none
  | fail (e : DbError)
deriving DecidableEq, Repr

/-- A jsonwebtoken credential. `jwt.sign({id, username}, SECRET_KEY,
{expiresIn: '1h'})` produces `signed id username SECRET_KEY exp`; any
word of the Authorization header that is not such a token (the scheme
word `Bearer`, garbage, a tampered token) is `malformed`. A signed
token whose `secret` differs from the verifying secret models a token
with an invalid signature. -/
inductive Jwt
  | signed (id : Nat) (username : String) (secret : String) (exp : Nat)
  | malformed (raw : String)
deriving DecidableEq, Repr

/-- An HTTP response body: `{error|message: s}` JSON objects, the login
success body `{message, token}`, the report-list array, or a plain-text
`res.send` body. -/
inductive Body
  | msg (s : String)
  | tokenBody (s : String) (t : Jwt)
  | reports (rs : List Report)
  | raw (s : String)
deriving DecidableEq, Repr

/-- An HTTP response: status code and body. -/
structure Response where
  status : Nat
  body : Body
deriving DecidableEq, Repr

/-- The shared signing secret (`SECRET_KEY` in `src/server.js`; the pool
variant defaults `process.env.JWT_SECRET` to the same literal). -/
def SECRET_KEY : String := "kunci_rahasia_akses"

/-- `jwt.sign({id: user.id, username: user.username}, SECRET_KEY,
{expiresIn: '1h'})`: the payload carries exactly the courier id and
username, and the expiry is one hour (3600 s) after issuance. -/
def jwtSign (id : Nat) (username : String) (secret : String) (now : Nat) : Jwt :=
  .signed id username secret (now + 3600)

/-- `jwt.verify(token, secret)` at instant `now`: succeeds with the
embedded payload iff the token is well-formed, its signature matches
`secret`, and it is not yet expired. -/
def jwtCheck (tok : Jwt) (secret : String) (now : Nat) : Option (Nat × String) :=
  match tok with
  | .signed i u s e => if s = secret ∧ now < e then some (i, u) else none
  | .malformed _ => none

/-- Outcome of the `verifyToken` middleware. -/
inductive AuthResult
  | ok (id : Nat) (username : String)
  | missingToken
  | invalidToken
deriving DecidableEq, Repr

/-- The `verifyToken` middleware: 403 `'Token tidak ditemukan'` when the
header is absent (or the empty string, equally falsy); otherwise the
token is `bearerHeader.split(' ')[1]` — the second space-separated word,
`undefined` when the header has a single word — and `jwt.verify` failure
gives 403 `'Token tidak valid'`; on success `req.user` carries the
payload for the duration of this request (the function is pure: no state
is read or written). -/
def verifyToken (header : Option (List Jwt)) (secret : String) (now : Nat) : AuthResult :=
  match header with
  | none => .missingToken
  | some words =>
    match words[1]? with
    | none => .invalidToken
    | some tok =>
      match jwtCheck tok secret now with
      | none => .invalidToken
      | some (i, u) => .ok i u

/-- `INSERT INTO users (username, password_hash) VALUES (?, ?)`: the
UNIQUE constraint on `username` makes a duplicate insert fail with
`ER_DUP_ENTRY` and leave the table unchanged. -/
def insertUser (fault : DbFault) (db : Db) (username hash : String) (now : Nat) :
    Except DbError Db :=
  match fault with
  | .fail e => .error e
  | .none =>
    if db.users.any (fun c => c.username == username) then
      .error ⟨"ER_DUP_ENTRY", "Duplicate entry"⟩
    else
      .ok { db with
              users := db.users ++ [⟨db.nextUserId, username, hash, now⟩],
              nextUserId := db.nextUserId + 1 }

/-- `POST /api/register`: 400 when either field is falsy; otherwise
`bcrypt.hash(password, 10)` and insert; `ER_DUP_ENTRY` gives 400, any
other query error 500, success 201. `hashFn` is the abstract bcrypt
hash applied to the password with cost factor 10. -/
def register (hashFn : String → Nat → String) (fault : DbFault) (db : Db)
    (username password : Option String) (now : Nat) : Response × Db :=
  if falsy username || falsy password then
    (⟨400, .msg "Username dan Password wajib diisi!"⟩, db)
  else
    match insertUser fault db (username.getD "") (hashFn (password.getD "") 10) now with
    | .error e =>
      if e.code == "ER_DUP_ENTRY" then (⟨400, .msg "Username sudah digunakan!"⟩, db)
      else (⟨500, .msg "Gagal registrasi"⟩, db)
    | .ok db2 => (⟨201, .msg "Registrasi Berhasil!"⟩, db2)

/-- `SELECT * FROM users WHERE username = ?`. -/
def selectUsers (fault : DbFault) (db : Db) (username : String) :
    Except DbError (List Courier) :=
  match fault with
  | .fail e => .error e
  | .none => .ok (db.users.filter (fun c => c.username == username))

/-- `POST /api/login`: 400 when either field falsy; 500 on query error;
401 `'Username tidak ditemukan!'` when no row matches; then
`bcrypt.compare(password, user.password_hash)` (abstract `cmp`): false
gives 401 `'Password salah!'`, true gives 200 with the signed token. -/
def login (cmp : String → String → Bool) (fault : DbFault) (db : Db)
    (username password : Option String) (now : Nat) : Response :=
  if falsy username || falsy password then
    ⟨400, .msg "Username dan Password wajib diisi!"⟩
  else
    match selectUsers fault db (username.getD "") with
    | .error _ => ⟨500, .msg "Server error"⟩
    | .ok [] => ⟨401, .msg "Username tidak ditemukan!"⟩
    | .ok (user :: _) =>
      if cmp (password.getD "") user.password_hash then
        ⟨200, .tokenBody "Login sukses" (jwtSign user.id user.username SECRET_KEY now)⟩
      else
        ⟨401, .msg "Password salah!"⟩

/-- The multipart photo file as multer hands it to the handler; the
`filename` is the one multer assigned (timestamp + original extension). -/
structure UploadedFile where
  originalname : String
  filename : String
deriving DecidableEq, Repr

/-- `INSERT INTO laporan_pengiriman (id_kurir, no_resi, foto_path,
latitude, longitude, status) VALUES (?, ?, ?, ?, ?, 'Terkirim')`. The
status column of every inserted row is the literal string `'Terkirim'`.
(The pool variant binds `req.file.filename`, the callback variant
`req.file.path`; both are `fotoPath` here.) -/
def insertReport (fault : DbFault) (db : Db) (uid : Nat)
    (no_resi fotoPath latitude longitude : String) (now : Nat) : Except DbError Db :=
  match fault with
  | .fail e => .error e
  | .none =>
    .ok { db with
            laporan := db.laporan ++
              [⟨db.nextReportId, uid, no_resi, fotoPath, latitude, longitude, "Terkirim", now⟩],
            nextReportId := db.nextReportId + 1 }

/-- The `POST /api/laporan` route handler proper (after the
`verifyToken` and multer middlewares): 400 `'Data tidak lengkap!'` when
`no_resi`, `latitude` or `longitude` is falsy; 400 `'Foto wajib
diupload!'` when no file was uploaded; then the insert, 500 on query
error, 200 on success. `uid` is `req.user.id` from the verified token. -/
def laporanHandler (fault : DbFault) (db : Db) (uid : Nat) (foto : Option UploadedFile)
    (no_resi latitude longitude : Option String) (now : Nat) : Response × Db :=
  if falsy no_resi || falsy latitude || falsy longitude then
    (⟨400, .msg "Data tidak lengkap!"⟩, db)
  else
    match foto with
    | none => (⟨400, .msg "Foto wajib diupload!"⟩, db)
    | some f =>
      match insertReport fault db uid (no_resi.getD "") f.filename
              (latitude.getD "") (longitude.getD "") now with
      | .error _ => (⟨500, .msg "Gagal simpan laporan"⟩, db)
      | .ok db2 => (⟨200, .msg "Laporan berhasil disimpan"⟩, db2)

/-- The full `POST /api/laporan` pipeline in middleware order:
`verifyToken` first (absent header 403, invalid token 403, with the
blob store untouched since multer has not yet run), then
`upload.single('foto')` writes the uploaded file to the blob store, then
the handler. Returns the response, the datastore and the blob store. -/
def postLaporan (header : Option (List Jwt)) (foto : Option UploadedFile)
    (no_resi latitude longitude : Option String)
    (fault : DbFault) (db : Db) (blobs : List String) (now : Nat) :
    Response × Db × List String :=
  match verifyToken header SECRET_KEY now with
  | .missingToken => (⟨403, .msg "Token tidak ditemukan"⟩, db, blobs)
  | .invalidToken => (⟨403, .msg "Token tidak valid"⟩, db, blobs)
  | .ok uid _ =>
    let blobs2 := match foto with
      | none => blobs
      | some f => blobs ++ [f.filename]
    let r := laporanHandler fault db uid foto no_resi latitude longitude now
    (r.1, r.2, blobs2)

/-- `ORDER BY created_at DESC`: row `a` may precede row `b` iff
`b.created_at ≤ a.created_at`. -/
def laterFirst (a b : Report) : Prop := b.created_at ≤ a.created_at

instance : DecidableRel laterFirst :=
  fun a b => inferInstanceAs (Decidable (b.created_at ≤ a.created_at))

instance : IsTotal Report laterFirst :=
  ⟨fun a b => (Nat.le_total a.created_at b.created_at).symm⟩

instance : IsTrans Report laterFirst :=
  ⟨fun _ _ _ hab hbc => Nat.le_trans hbc hab⟩

/-- `SELECT * FROM laporan_pengiriman WHERE id_kurir = ? ORDER BY
created_at DESC`: the courier's rows in some order that is
non-increasing in `created_at` (modelled by a deterministic sort; SQL
guarantees no more than the ordering). -/
def selectReports (fault : DbFault) (db : Db) (uid : Nat) :
    Except DbError (List Report) :=
  match fault with
  | .fail e => .error e
  | .none =>
    .ok (List.insertionSort laterFirst (db.laporan.filter (fun r => r.id_kurir == uid)))

/-- The full `GET /api/laporan` pipeline: `verifyToken`, then the
ordered select for `req.user.id`; 500 on query error, otherwise 200 with
the rows. Neither store is mutated on any path. -/
def getLaporan (header : Option (List Jwt))
    (fault : DbFault) (db : Db) (blobs : List String) (now : Nat) :
    Response × Db × List String :=
  match verifyToken header SECRET_KEY now with
  | .missingToken => (⟨403, .msg "Token tidak ditemukan"⟩, db, blobs)
  | .invalidToken => (⟨403, .msg "Token tidak valid"⟩, db, blobs)
  | .ok uid _ =>
    match selectReports fault db uid with
    | .error _ => (⟨500, .msg "Gagal ambil data"⟩, db, blobs)
    | .ok rows => (⟨200, .reports rows⟩, db, blobs)

/-- `GET /init-db` (pool variant only): on success a plain-text body;
on failure `res.status(500).send(err.message)` — the raw driver error
message is sent verbatim to the client. -/
def initDb (outcome : Except DbError Unit) : Response :=
  match outcome with
  | .ok _ => ⟨200, .raw "Database initialized successfully 🚀"⟩
  | .error e => ⟨500, .raw e.message⟩

/-! ### Concrete end-to-end run

The scenario of spec §8: register `alice`/`secret123`, login, submit one
report with that token, list the reports. The abstract bcrypt is
instantiated with the stand-in pair `hash p = p ++ "!"`,
`cmp p h = (h == p ++ "!")`; only determinism and hash/compare agreement
matter for the run. -/

/-- The datastore after registering alice/secret123 at instant 10 into
the freshly initialised store. -/
def demoDb1 : Db :=
  (register (fun p _ => p ++ "!") .none ⟨[], [], 1, 1⟩
    (some "alice") (some "secret123") 10).2

/-- The token login issues to alice at instant 20 (expiry 20 + 3600). -/
def demoToken : Jwt := .signed 1 "alice" SECRET_KEY 3620

/-- The Authorization header `Bearer <token>` as its word list. -/
def demoHeader : Option (List Jwt) := some [.malformed "Bearer", demoToken]

/-- The result of alice submitting one report (RESI1, coordinates, a
photo stored as `1700.jpg`) at instant 30. -/
def demoAfterPost : Response × Db × List String :=
  postLaporan demoHeader (some ⟨"proof.jpg", "1700.jpg"⟩)
    (some "RESI1") (some "1.5") (some "103.8") .none demoDb1 [] 30

/-! ## Theorems -/

/-- C1: For every login request: if username or password is empty the
result is InvalidInput (400); otherwise if no Courier record matches the
username the result is UserNotFound (401); otherwise if the password
hash comparison fails the result is InvalidCredentials (401); otherwise
login succeeds (200) and returns a signed session token whose payload
contains exactly the courier's id and username and whose expiration is
one hour (3600 s) after issuance. -/
theorem login_spec_C1 (cmp : String → String → Bool) (db : Db)
    (username password : Option String) (now : Nat) :
    ((falsy username || falsy password) = true →
      login cmp .none db username password now =
        ⟨400, .msg "Username dan Password wajib diisi!"⟩)
    ∧ ((falsy username || falsy password) = false →
        db.users.filter (fun c => c.username == username.getD "") = [] →
        login cmp .none db username password now =
          ⟨401, .msg "Username tidak ditemukan!"⟩)
    ∧ (∀ user rest, (falsy username || falsy password) = false →
        db.users.filter (fun c => c.username == username.getD "") = user :: rest →
        cmp (password.getD "") user.password_hash = false →
        login cmp .none db username password now = ⟨401, .msg "Password salah!"⟩)
    ∧ (∀ user rest, (falsy username || falsy password) = false →
        db.users.filter (fun c => c.username == username.getD "") = user :: rest →
        cmp (password.getD "") user.password_hash = true →
        login cmp .none db username password now =
          ⟨200, .tokenBody "Login sukses"
            (Jwt.signed user.id user.username SECRET_KEY (now + 3600))⟩) := by
  refine ⟨fun h => by simp [login, h], fun h hsel => ?_,
          fun user rest h hsel hcmp => ?_, fun user rest h hsel hcmp => ?_⟩
  · simp [login, selectUsers, h, hsel]
  · simp [login, selectUsers, h, hsel, hcmp]
  · simp [login, selectUsers, h, hsel, hcmp, jwtSign]

/-- Witness for C1: a concrete successful login returning the signed
token for courier 1 / alice with expiry 5 + 3600. -/
theorem login_spec_C1_witness :
    login (fun p h => p == h) .none
        ⟨[⟨1, "alice", "secret123", 0⟩], [], 2, 0⟩
        (some "alice") (some "secret123") 5 =
      ⟨200, .tokenBody "Login sukses" (Jwt.signed 1 "alice" SECRET_KEY 3605)⟩ :=
  (login_spec_C1 (fun p h => p == h) ⟨[⟨1, "alice", "secret123", 0⟩], [], 2, 0⟩
      (some "alice") (some "secret123") 5).2.2.2
    ⟨1, "alice", "secret123", 0⟩ [] (by decide) (by decide) (by decide)

/-- C3: For every state of the Credential Store already holding a given
username, registering that username again fails with DuplicateUsername
(400) and leaves the store unchanged; hence after two registrations with
the same username the store contains exactly one record for that
username. -/
theorem register_duplicate_C3 (hashFn : String → Nat → String) (db : Db)
    (username : String) (password password2 : Option String) (now now2 : Nat)
    (hu : username ≠ "") (hp : falsy password = false) (hp2 : falsy password2 = false) :
    (∀ c ∈ db.users, c.username = username →
      register hashFn .none db (some username) password now =
        (⟨400, .msg "Username sudah digunakan!"⟩, db))
    ∧ (db.users.countP (fun c => c.username == username) = 0 →
        (register hashFn .none db (some username) password now).1.status = 201 ∧
        (register hashFn .none
            (register hashFn .none db (some username) password now).2
            (some username) password2 now2) =
          (⟨400, .msg "Username sudah digunakan!"⟩,
            (register hashFn .none db (some username) password now).2) ∧
        ((register hashFn .none db (some username) password now).2).users.countP
            (fun c => c.username == username) = 1) := by
  have hfu : falsy (some username) = false := by
    simp only [falsy]
    exact Bool.eq_false_iff.mpr (fun h => hu ((String.isEmpty_iff username).mp h))
  constructor
  · intro c hc hcu
    have hany : db.users.any (fun c => c.username == username) = true := by
      simp only [List.any_eq_true]
      exact ⟨c, hc, by simp [hcu]⟩
    simp [register, insertUser, hfu, hp, hany]
  · intro hcount
    have hnone : ∀ c ∈ db.users, ¬(c.username == username) = true := by
      simpa using List.countP_eq_zero.mp hcount
    have hany : db.users.any (fun c => c.username == username) = false := by
      simp only [List.any_eq_false]
      intro c hc
      simpa using hnone c hc
    have h1 : register hashFn .none db (some username) password now =
        (⟨201, .msg "Registrasi Berhasil!"⟩,
          { db with
              users := db.users ++ [⟨db.nextUserId, username, hashFn (password.getD "") 10, now⟩],
              nextUserId := db.nextUserId + 1 }) := by
      simp [register, insertUser, hfu, hp, hany]
    rw [h1]
    have hany2 : (db.users ++ [⟨db.nextUserId, username, hashFn (password.getD "") 10, now⟩]
        : List Courier).any (fun c => c.username == username) = true := by
      simp
    refine ⟨rfl, ?_, ?_⟩
    · simp [register, insertUser, hfu, hp2, hany2]
    · simp [List.countP_append, hcount, List.countP_cons]

/-- Witness for C3: registering "alice" twice in the empty store: the
repeat fails with 400 and the store holds exactly one "alice" record. -/
theorem register_duplicate_C3_witness :
    (register (fun p _ => p) .none ⟨[], [], 0, 0⟩ (some "alice") (some "pw") 1).1.status = 201 ∧
    (register (fun p _ => p) .none
        (register (fun p _ => p) .none ⟨[], [], 0, 0⟩ (some "alice") (some "pw") 1).2
        (some "alice") (some "pw2") 2) =
      (⟨400, .msg "Username sudah digunakan!"⟩,
        (register (fun p _ => p) .none ⟨[], [], 0, 0⟩ (some "alice") (some "pw") 1).2) ∧
    ((register (fun p _ => p) .none ⟨[], [], 0, 0⟩ (some "alice") (some "pw") 1).2).users.countP
        (fun c => c.username == "alice") = 1 :=
  (register_duplicate_C3 (fun p _ => p) ⟨[], [], 0, 0⟩ "alice" (some "pw") (some "pw2") 1 2
      (by decide) (by decide) (by decide)).2 (by decide)

/-- C4: a report submission with trackingNumber, latitude or longitude
missing/empty yields InvalidInput (400); with those fields present but
no photo payload yields MissingPhoto (400); in both failure cases the
Report Store is unchanged (no DeliveryReport row is inserted). -/
theorem laporan_validation_C4 (fault : DbFault) (db : Db) (uid : Nat)
    (foto : Option UploadedFile) (no_resi latitude longitude : Option String) (now : Nat) :
    ((falsy no_resi || falsy latitude || falsy longitude) = true →
      laporanHandler fault db uid foto no_resi latitude longitude now =
        (⟨400, .msg "Data tidak lengkap!"⟩, db))
    ∧ ((falsy no_resi || falsy latitude || falsy longitude) = false →
        laporanHandler fault db uid none no_resi latitude longitude now =
          (⟨400, .msg "Foto wajib diupload!"⟩, db)) := by
  constructor <;> intro h <;> simp [laporanHandler, h]

/-- Witness for C4: missing longitude gives 400 with the store
unchanged; all fields present but no photo gives 400 with the store
unchanged. -/
theorem laporan_validation_C4_witness :
    laporanHandler .none ⟨[], [], 0, 0⟩ 1 none (some "RESI1") (some "1.5") none 7 =
      (⟨400, .msg "Data tidak lengkap!"⟩, ⟨[], [], 0, 0⟩) ∧
    laporanHandler .none ⟨[], [], 0, 0⟩ 1 none (some "RESI1") (some "1.5") (some "2.5") 7 =
      (⟨400, .msg "Foto wajib diupload!"⟩, ⟨[], [], 0, 0⟩) :=
  ⟨(laporan_validation_C4 .none ⟨[], [], 0, 0⟩ 1 none (some "RESI1") (some "1.5") none 7).1
      (by decide),
    (laporan_validation_C4 .none ⟨[], [], 0, 0⟩ 1 none (some "RESI1") (some "1.5")
        (some "2.5") 7).2 (by decide)⟩

/-- C8: a protected endpoint (POST /api/laporan or GET /api/laporan)
called with no Authorization header returns 403, and both the Report
Store (the datastore) and the Blob Store are returned unchanged: the
`verifyToken` middleware rejects before multer or any query runs. -/
theorem no_auth_frame_C8 (foto : Option UploadedFile)
    (no_resi latitude longitude : Option String)
    (fault : DbFault) (db : Db) (blobs : List String) (now : Nat) :
    postLaporan none foto no_resi latitude longitude fault db blobs now =
      (⟨403, .msg "Token tidak ditemukan"⟩, db, blobs)
    ∧ getLaporan none fault db blobs now =
      (⟨403, .msg "Token tidak ditemukan"⟩, db, blobs) :=
  ⟨rfl, rfl⟩

/-- C6: on a protected request, an absent bearer credential fails with
MissingToken; an invalid signature, a malformed token, or an expired
token fails with InvalidToken; both are answered 403 by the protected
endpoints; on success the verifier exposes the embedded courier id and
username to the handler. (`verifyToken` is a pure function of the
header, the secret and the clock, so the identity lives only for the
request being handled.) -/
theorem verifyToken_spec_C6 (secret : String) (now : Nat) :
    (verifyToken none secret now = .missingToken)
    ∧ (∀ ws : List Jwt, ∀ raw, ws[1]? = some (.malformed raw) →
        verifyToken (some ws) secret now = .invalidToken)
    ∧ (∀ ws : List Jwt, ∀ i u s e, ws[1]? = some (.signed i u s e) → s ≠ secret →
        verifyToken (some ws) secret now = .invalidToken)
    ∧ (∀ ws : List Jwt, ∀ i u e, ws[1]? = some (.signed i u secret e) → e ≤ now →
        verifyToken (some ws) secret now = .invalidToken)
    ∧ (∀ ws : List Jwt, ∀ i u e, ws[1]? = some (.signed i u secret e) → now < e →
        verifyToken (some ws) secret now = .ok i u)
    ∧ (∀ header fault db blobs, (∀ i u, verifyToken header SECRET_KEY now ≠ .ok i u) →
        (getLaporan header fault db blobs now).1.status = 403) := by
  refine ⟨rfl, fun ws raw h => ?_, fun ws i u s e h hs => ?_,
          fun ws i u e h he => ?_, fun ws i u e h he => ?_,
          fun header fault db blobs h => ?_⟩
  · simp [verifyToken, h, jwtCheck]
  · simp [verifyToken, h, jwtCheck, hs]
  · simp [verifyToken, h, jwtCheck, Nat.not_lt.mpr he]
  · simp [verifyToken, h, jwtCheck, he]
  · unfold getLaporan
    cases hv : verifyToken header SECRET_KEY now with
    | ok i u => exact absurd hv (h i u)
    | missingToken => rfl
    | invalidToken => rfl

/-- Witness for C6: the absent header is rejected; a malformed second
word, a wrong-secret token and an expired token are rejected; a valid
token at second position is accepted with its id and username; a
rejected request is answered 403 by GET /api/laporan. -/
theorem verifyToken_spec_C6_witness :
    verifyToken none SECRET_KEY 50 = .missingToken
    ∧ verifyToken (some [.malformed "Bearer", .malformed "garbage"]) SECRET_KEY 50 =
        .invalidToken
    ∧ verifyToken (some [.malformed "Bearer", .signed 1 "alice" "wrong_secret" 100])
        SECRET_KEY 50 = .invalidToken
    ∧ verifyToken (some [.malformed "Bearer", .signed 1 "alice" SECRET_KEY 40])
        SECRET_KEY 50 = .invalidToken
    ∧ verifyToken (some [.malformed "Bearer", .signed 1 "alice" SECRET_KEY 100])
        SECRET_KEY 50 = .ok 1 "alice"
    ∧ (getLaporan none .none ⟨[], [], 0, 0⟩ [] 50).1.status = 403 :=
  ⟨(verifyToken_spec_C6 SECRET_KEY 50).1,
    (verifyToken_spec_C6 SECRET_KEY 50).2.1 _ "garbage" rfl,
    (verifyToken_spec_C6 SECRET_KEY 50).2.2.1 _ 1 "alice" "wrong_secret" 100 rfl (by decide),
    (verifyToken_spec_C6 SECRET_KEY 50).2.2.2.1 _ 1 "alice" 40 rfl (by decide),
    (verifyToken_spec_C6 SECRET_KEY 50).2.2.2.2.1 _ 1 "alice" 100 rfl (by decide),
    (verifyToken_spec_C6 SECRET_KEY 50).2.2.2.2.2 none .none ⟨[], [], 0, 0⟩ []
      (fun i u => by simp [verifyToken])⟩

/-- C10: the verifier's decision on a present Authorization header
depends only on the second space-separated word: the scheme word is
never checked (any `<anything> <valid-token>` header is accepted), and a
non-empty header with no space (a single word) yields InvalidToken, not
MissingToken. -/
theorem token_extraction_C10 (secret : String) (now : Nat) :
    (∀ ws ws2 : List Jwt, ws[1]? = ws2[1]? →
      verifyToken (some ws) secret now = verifyToken (some ws2) secret now)
    ∧ (∀ scheme : Jwt, ∀ i u e, now < e →
        verifyToken (some [scheme, .signed i u secret e]) secret now = .ok i u)
    ∧ (∀ w : Jwt, verifyToken (some [w]) secret now = .invalidToken) := by
  refine ⟨fun ws ws2 h => ?_, fun scheme i u e he => ?_, fun w => ?_⟩
  · simp only [verifyToken]
    rw [h]
  · simp [verifyToken, jwtCheck, he]
  · simp [verifyToken]

/-- Witness for C10: a token signed with the right secret is accepted
behind the scheme word "NotBearer"; replacing the scheme word leaves the
decision unchanged; a one-word header is InvalidToken. -/
theorem token_extraction_C10_witness :
    verifyToken (some [.malformed "NotBearer", .signed 9 "bob" SECRET_KEY 200])
        SECRET_KEY 60 = .ok 9 "bob"
    ∧ verifyToken (some [.malformed "Bearer", .signed 9 "bob" SECRET_KEY 200])
          SECRET_KEY 60 =
        verifyToken (some [.malformed "Basic", .signed 9 "bob" SECRET_KEY 200])
          SECRET_KEY 60
    ∧ verifyToken (some [.malformed "Bearer"]) SECRET_KEY 60 = .invalidToken :=
  ⟨(token_extraction_C10 SECRET_KEY 60).2.1 (.malformed "NotBearer") 9 "bob" 200 (by decide),
    (token_extraction_C10 SECRET_KEY 60).1 [.malformed "Bearer", .signed 9 "bob" SECRET_KEY 200]
      [.malformed "Basic", .signed 9 "bob" SECRET_KEY 200] rfl,
    (token_extraction_C10 SECRET_KEY 60).2.2 (.malformed "Bearer")⟩

/-- Counterexample for C7: the claim promises 201 for every request
with non-empty username and password, but with the username already in
the store the code returns 400 DuplicateUsername and persists nothing. -/
theorem register_dup_returns_400_C7 :
    register (fun p _ => p ++ "!") .none ⟨[⟨1, "alice", "old!", 0⟩], [], 2, 1⟩
        (some "alice") (some "pw") 5 =
      (⟨400, .msg "Username sudah digunakan!"⟩, ⟨[⟨1, "alice", "old!", 0⟩], [], 2, 1⟩) := by
  decide

/-- C7 as amended: for every registration request with non-empty
username and password whose username is not yet in the Credential
Store, register hashes the password with cost factor 10 via the bcrypt
hash, persists exactly one new Courier record containing that hash (and
not the plaintext, provided the hash differs from its input, as a
one-way hash does), and returns 201; if either field is empty it fails
with InvalidInput (400) and no record is persisted. -/
theorem register_spec_C7 (hashFn : String → Nat → String) (db : Db)
    (username password : Option String) (now : Nat) :
    ((falsy username || falsy password) = true →
      register hashFn .none db username password now =
        (⟨400, .msg "Username dan Password wajib diisi!"⟩, db))
    ∧ ((falsy username || falsy password) = false →
        db.users.countP (fun c => c.username == username.getD "") = 0 →
        register hashFn .none db username password now =
          (⟨201, .msg "Registrasi Berhasil!"⟩,
            { db with
                users := db.users ++
                  [⟨db.nextUserId, username.getD "", hashFn (password.getD "") 10, now⟩],
                nextUserId := db.nextUserId + 1 }))
    ∧ ((falsy username || falsy password) = false →
        db.users.countP (fun c => c.username == username.getD "") = 0 →
        hashFn (password.getD "") 10 ≠ password.getD "" →
        ∀ c ∈ (register hashFn .none db username password now).2.users,
          c ∉ db.users → c.password_hash ≠ password.getD "") := by
  have key : ∀ hcount : db.users.countP (fun c => c.username == username.getD "") = 0,
      db.users.any (fun c => c.username == username.getD "") = false := by
    intro hcount
    have hnone := List.countP_eq_zero.mp hcount
    simp only [List.any_eq_false]
    intro c hc
    simpa using hnone c hc
  refine ⟨fun h => by simp [register, h], fun h hcount => ?_, fun h hcount hne c hc hnotold => ?_⟩
  · simp [register, insertUser, h, key hcount]
  · have heq : (register hashFn .none db username password now).2.users =
        db.users ++ [⟨db.nextUserId, username.getD "", hashFn (password.getD "") 10, now⟩] := by
      simp [register, insertUser, h, key hcount]
    rw [heq] at hc
    rcases List.mem_append.mp hc with hold | hnew
    · exact absurd hold hnotold
    · have : c = ⟨db.nextUserId, username.getD "", hashFn (password.getD "") 10, now⟩ := by
        simpa using hnew
      rw [this]
      exact hne

/-- Witness for C7: registering bob with a fresh username persists the
single hashed record and returns 201; the empty-password request is
rejected with 400 leaving the store unchanged. -/
theorem register_spec_C7_witness :
    register (fun p _ => p ++ "!") .none ⟨[], [], 4, 1⟩ (some "bob") (some "hunter2") 9 =
      (⟨201, .msg "Registrasi Berhasil!"⟩, ⟨[⟨4, "bob", "hunter2!", 9⟩], [], 5, 1⟩) ∧
    register (fun p _ => p ++ "!") .none ⟨[], [], 4, 1⟩ (some "bob") (some "") 9 =
      (⟨400, .msg "Username dan Password wajib diisi!"⟩, ⟨[], [], 4, 1⟩) :=
  ⟨(register_spec_C7 (fun p _ => p ++ "!") ⟨[], [], 4, 1⟩ (some "bob") (some "hunter2") 9).2.1
      (by decide) (by decide),
    (register_spec_C7 (fun p _ => p ++ "!") ⟨[], [], 4, 1⟩ (some "bob") (some "") 9).1
      (by decide)⟩

/-- Counterexample for C2: the end-to-end flow (register alice, login,
submit one report, list reports) returns exactly one report, but its
status field is the literal string "Terkirim" stored by the INSERT, not
"delivered" as the claim states. -/
theorem report_status_not_delivered_C2 :
    login (fun p h => h == p ++ "!") .none demoDb1 (some "alice") (some "secret123") 20 =
      ⟨200, .tokenBody "Login sukses" demoToken⟩
    ∧ demoAfterPost.1 = ⟨200, .msg "Laporan berhasil disimpan"⟩
    ∧ (getLaporan demoHeader .none demoAfterPost.2.1 demoAfterPost.2.2 40).1 =
      ⟨200, .reports [⟨1, 1, "RESI1", "1700.jpg", "1.5", "103.8", "Terkirim", 30⟩]⟩
    ∧ "Terkirim" ≠ "delivered" := by
  refine ⟨by decide, by decide, by decide, by decide⟩

/-- C2 as amended: every DeliveryReport row created by a successful
report submission has its status field equal to the fixed string
"Terkirim" (the Indonesian word the INSERT hard-codes; the spec renders
it as "delivered"), and the end-to-end register/login/submit/list flow
returns exactly that one report with status "Terkirim". -/
theorem report_status_terkirim_C2 (fault : DbFault) (db : Db) (uid : Nat)
    (f : UploadedFile) (foto : Option UploadedFile)
    (no_resi latitude longitude : Option String) (now : Nat) :
    ((falsy no_resi || falsy latitude || falsy longitude) = false →
      laporanHandler .none db uid (some f) no_resi latitude longitude now =
        (⟨200, .msg "Laporan berhasil disimpan"⟩,
          { db with
              laporan := db.laporan ++
                [⟨db.nextReportId, uid, no_resi.getD "", f.filename,
                  latitude.getD "", longitude.getD "", "Terkirim", now⟩],
              nextReportId := db.nextReportId + 1 }))
    ∧ (∀ r ∈ (laporanHandler fault db uid foto no_resi latitude longitude now).2.laporan,
        r ∈ db.laporan ∨ r.status = "Terkirim")
    ∧ (getLaporan demoHeader .none demoAfterPost.2.1 demoAfterPost.2.2 40).1 =
      ⟨200, .reports [⟨1, 1, "RESI1", "1700.jpg", "1.5", "103.8", "Terkirim", 30⟩]⟩ := by
  refine ⟨fun h => by simp [laporanHandler, insertReport, h], ?_, by decide⟩
  intro r hr
  unfold laporanHandler at hr
  split at hr
  · exact Or.inl hr
  · split at hr
    · exact Or.inl hr
    · rename_i f2
      cases fault with
      | fail e =>
        simp only [insertReport] at hr
        exact Or.inl hr
      | none =>
        simp only [insertReport] at hr
        rcases List.mem_append.mp hr with hold | hnew
        · exact Or.inl hold
        · right
          have hrEq : r = ⟨db.nextReportId, uid, no_resi.getD "", f2.filename,
              latitude.getD "", longitude.getD "", "Terkirim", now⟩ := by
            simpa using hnew
          rw [hrEq]

/-- Witness for C2 (amended): the concrete successful submission
appends exactly one row with status "Terkirim". -/
theorem report_status_terkirim_C2_witness :
    laporanHandler .none ⟨[], [], 0, 5⟩ 3 (some ⟨"p.jpg", "99.jpg"⟩)
        (some "RESI9") (some "7.2") (some "110.4") 77 =
      (⟨200, .msg "Laporan berhasil disimpan"⟩,
        ⟨[], [⟨5, 3, "RESI9", "99.jpg", "7.2", "110.4", "Terkirim", 77⟩], 0, 6⟩) :=
  (report_status_terkirim_C2 .none ⟨[], [], 0, 5⟩ 3 ⟨"p.jpg", "99.jpg"⟩ none
      (some "RESI9") (some "7.2") (some "110.4") 77).1 (by decide)

/-- Counterexample for C5: MySQL TIMESTAMP has one-second resolution,
so two reports of one courier can share a creation time; `ORDER BY
created_at DESC` then returns them in an order that is not *strictly*
descending: here courier 7 has two rows both created at instant 100, and
the returned pair violates strict descent. -/
theorem listReports_ties_C5 :
    (getLaporan (some [.malformed "Bearer", .signed 7 "kurir" SECRET_KEY 1000]) .none
        ⟨[], [⟨1, 7, "A", "a.jpg", "0", "0", "Terkirim", 100⟩,
              ⟨2, 7, "B", "b.jpg", "0", "0", "Terkirim", 100⟩], 0, 3⟩ [] 50).1 =
      ⟨200, .reports [⟨1, 7, "A", "a.jpg", "0", "0", "Terkirim", 100⟩,
                      ⟨2, 7, "B", "b.jpg", "0", "0", "Terkirim", 100⟩]⟩
    ∧ ¬ List.Pairwise (fun a b : Report => b.created_at < a.created_at)
        [⟨1, 7, "A", "a.jpg", "0", "0", "Terkirim", 100⟩,
         ⟨2, 7, "B", "b.jpg", "0", "0", "Terkirim", 100⟩] := by
  refine ⟨by decide, by decide⟩

/-- C5 as amended: for every courier id, listReports returns all and
only that courier's DeliveryReport rows (never another courier's rows),
ordered by creation time descending — non-strictly: rows with equal
creation time may appear in either order — and returns the empty
sequence when the courier has no reports; neither store is modified. -/
theorem listReports_spec_C5 (db : Db) (blobs : List String) (ws : List Jwt)
    (uid : Nat) (u : String) (e now : Nat)
    (hws : ws[1]? = some (.signed uid u SECRET_KEY e)) (hexp : now < e) :
    (getLaporan (some ws) .none db blobs now =
      (⟨200, .reports (List.insertionSort laterFirst
          (db.laporan.filter (fun r => r.id_kurir == uid)))⟩, db, blobs))
    ∧ List.Perm
        (List.insertionSort laterFirst (db.laporan.filter (fun r => r.id_kurir == uid)))
        (db.laporan.filter (fun r => r.id_kurir == uid))
    ∧ (∀ r ∈ List.insertionSort laterFirst
          (db.laporan.filter (fun r => r.id_kurir == uid)),
        r.id_kurir = uid)
    ∧ (∀ r ∈ db.laporan, r.id_kurir = uid →
        r ∈ List.insertionSort laterFirst
          (db.laporan.filter (fun r => r.id_kurir == uid)))
    ∧ List.Sorted laterFirst
        (List.insertionSort laterFirst (db.laporan.filter (fun r => r.id_kurir == uid)))
    ∧ ((∀ r ∈ db.laporan, r.id_kurir ≠ uid) →
        List.insertionSort laterFirst (db.laporan.filter (fun r => r.id_kurir == uid))
          = []) := by
  refine ⟨?_, List.perm_insertionSort laterFirst _, fun r hr => ?_, fun r hr hid => ?_,
          List.sorted_insertionSort laterFirst _, fun hnone => ?_⟩
  · simp [getLaporan, verifyToken, hws, jwtCheck, hexp, selectReports]
  · have := (List.perm_insertionSort laterFirst
        (db.laporan.filter (fun r => r.id_kurir == uid))).mem_iff.mp hr
    simpa using (List.mem_filter.mp this).2
  · exact (List.perm_insertionSort laterFirst _).mem_iff.mpr
      (List.mem_filter.mpr ⟨hr, by simpa using hid⟩)
  · have hfil : db.laporan.filter (fun r => r.id_kurir == uid) = [] := by
      rw [List.filter_eq_nil_iff]
      intro r hr
      simpa using hnone r hr
    rw [hfil]
    rfl

/-- Witness for C5 (amended): a store holding rows of couriers 7 and 8
queried with courier 7's token returns exactly courier 7's rows, most
recent first, with both stores unchanged. -/
theorem listReports_spec_C5_witness :
    getLaporan (some [.malformed "Bearer", .signed 7 "kurir" SECRET_KEY 1000]) .none
        ⟨[], [⟨1, 7, "A", "a.jpg", "0", "0", "Terkirim", 100⟩,
              ⟨2, 8, "C", "c.jpg", "0", "0", "Terkirim", 150⟩,
              ⟨3, 7, "B", "b.jpg", "0", "0", "Terkirim", 200⟩], 0, 4⟩ ["a.jpg"] 50 =
      (⟨200, .reports (List.insertionSort laterFirst
          (([⟨1, 7, "A", "a.jpg", "0", "0", "Terkirim", 100⟩,
             ⟨2, 8, "C", "c.jpg", "0", "0", "Terkirim", 150⟩,
             ⟨3, 7, "B", "b.jpg", "0", "0", "Terkirim", 200⟩] : List Report).filter
            (fun r => r.id_kurir == 7)))⟩,
        ⟨[], [⟨1, 7, "A", "a.jpg", "0", "0", "Terkirim", 100⟩,
              ⟨2, 8, "C", "c.jpg", "0", "0", "Terkirim", 150⟩,
              ⟨3, 7, "B", "b.jpg", "0", "0", "Terkirim", 200⟩], 0, 4⟩, ["a.jpg"]) ∧
    List.insertionSort laterFirst
        (([⟨1, 7, "A", "a.jpg", "0", "0", "Terkirim", 100⟩,
           ⟨2, 8, "C", "c.jpg", "0", "0", "Terkirim", 150⟩,
           ⟨3, 7, "B", "b.jpg", "0", "0", "Terkirim", 200⟩] : List Report).filter
          (fun r => r.id_kurir == 7)) =
      [⟨3, 7, "B", "b.jpg", "0", "0", "Terkirim", 200⟩,
       ⟨1, 7, "A", "a.jpg", "0", "0", "Terkirim", 100⟩] :=
  ⟨(listReports_spec_C5
      ⟨[], [⟨1, 7, "A", "a.jpg", "0", "0", "Terkirim", 100⟩,
            ⟨2, 8, "C", "c.jpg", "0", "0", "Terkirim", 150⟩,
            ⟨3, 7, "B", "b.jpg", "0", "0", "Terkirim", 200⟩], 0, 4⟩ ["a.jpg"]
      [.malformed "Bearer", .signed 7 "kurir" SECRET_KEY 1000] 7 "kurir" 1000 50
      rfl (by decide)).1, by decide⟩

/-- Counterexample for C9: the `/init-db` error branch executes
`res.status(500).send(err.message)`, sending the raw driver error
message verbatim to the client — internal error detail in a response
body, which the claim says never happens. -/
theorem initDb_leaks_error_C9 :
    initDb (.error ⟨"ER_ACCESS_DENIED_ERROR", "Access denied for user root@db"⟩) =
      ⟨500, .raw "Access denied for user root@db"⟩ := rfl

/-- C9 as amended: the four /api endpoints return only fixed generic
messages — on any driver failure `e` their bodies are drawn from the
fixed per-endpoint message sets, independent of `e.message` — but the
`GET /init-db` error branch returns the raw driver error message with
status 500. -/
theorem generic_errors_C9 (hashFn : String → Nat → String) (cmp : String → String → Bool)
    (e : DbError) (db : Db) (blobs : List String)
    (username password no_resi latitude longitude : Option String)
    (foto : Option UploadedFile) (header : Option (List Jwt)) (now : Nat) :
    (register hashFn (.fail e) db username password now).1.body ∈
        [Body.msg "Username dan Password wajib diisi!",
         Body.msg "Username sudah digunakan!", Body.msg "Gagal registrasi"]
    ∧ (login cmp (.fail e) db username password now).body ∈
        [Body.msg "Username dan Password wajib diisi!", Body.msg "Server error"]
    ∧ (postLaporan header foto no_resi latitude longitude (.fail e) db blobs now).1.body ∈
        [Body.msg "Token tidak ditemukan", Body.msg "Token tidak valid",
         Body.msg "Data tidak lengkap!", Body.msg "Foto wajib diupload!",
         Body.msg "Gagal simpan laporan"]
    ∧ (getLaporan header (.fail e) db blobs now).1.body ∈
        [Body.msg "Token tidak ditemukan", Body.msg "Token tidak valid",
         Body.msg "Gagal ambil data"]
    ∧ initDb (.error e) = ⟨500, .raw e.message⟩ := by
  refine ⟨?_, ?_, ?_, ?_, rfl⟩
  · by_cases h : (falsy username || falsy password) = true
    · simp [register, h]
    · simp only [Bool.not_eq_true] at h
      simp only [register, insertUser, h]
      split
      · simp
      · split <;> simp
  · unfold login selectUsers
    split
    · simp
    · simp
  · unfold postLaporan
    cases hv : verifyToken header SECRET_KEY now with
    | missingToken => simp
    | invalidToken => simp
    | ok i u =>
      show (laporanHandler (DbFault.fail e) db i foto no_resi latitude longitude now).1.body
        ∈ _
      unfold laporanHandler insertReport
      split
      · simp
      · split
        · simp
        · simp
  · unfold getLaporan selectReports
    split
    · simp
    · simp
    · simp

end GeoPatrol
